import Mathlib

/-!
Shallow embedding of `ros/angel_system_nodes/angel_system_nodes/task_monitor.py`:
the `Task` state machine (tea-making task) and the `TaskMonitor` node's
`listener_callback`, `publish_task_state_message` and `task_timer_thread`.

Python mutable attributes of the node and of the machine's state objects
become fields of `MonitorState`; each callback becomes a function from
`MonitorState` to a new state plus the list of observable effects (published
`TaskUpdate` messages, transition attempts, timer-thread starts).  A raised
and unhandled Python exception (IndexError / AttributeError / KeyError)
becomes `Except.error ()`.
-/

/-- One entry of `Task.transitions`: `{trigger, source, dest}`. -/
structure Transition where
  trigger : String
  source : String
  dest : String
deriving DecidableEq, Repr

/-- `Task.steps` names, in declaration order; these are also the keys of
`machine.states` in insertion order (the `Machine` is built from this list
with `initial` set to the first element, so no extra state is added). -/
def stepNames : List String :=
  ["open_bottle_and_pour_water_into_cup",
   "place_tea_bag_into_cup",
   "steep_for_20_seconds",
   "enjoy"]

/-- `Task.transitions` as declared. -/
def taskTransitions : List Transition :=
  [⟨"open_bottle", "open_bottle_and_pour_water_into_cup", "place_tea_bag_into_cup"⟩,
   ⟨"make_tea", "place_tea_bag_into_cup", "steep_for_20_seconds"⟩]

/-- `TaskMonitor._activity_action_dict`: activity label to the trigger whose
bound method it stores (`'opening bottle' -> open_bottle`, `'making tea' -> make_tea`),
in declaration order. -/
def activityActionDict : List (String × String) :=
  [("opening bottle", "open_bottle"), ("making tea", "make_tea")]

/-- `Task.name`. -/
def taskName : String := "Making Tea"

/-- `Task.description`. -/
def taskDescription : String :=
  "Open the water bottle and pour the water into a tea cup." ++
  " Place the tea bag in the cup." ++
  " Wait 20 seconds while the tea bag steeps, then drink and enjoy!"

/-- `Task.items` as the ordered (name, quantity) pairs of the dict literal. -/
def taskItems : List (String × Int) :=
  [("water bottle", 1), ("tea bag", 1), ("cup", 1)]

/-- Python `str.replace('_', ' ')` for the single-character pattern used by
`publish_task_state_message`: every underscore becomes a space. -/
def humanize (s : String) : String :=
  String.mk (s.data.map (fun c => if c = '_' then ' ' else c))

/-- Mutable state of the node together with the mutable parts of its `Task`:
`taskState` is `self._task.state` (the machine's current state);
`steepTimerLength` is `machine.states['steep_for_20_seconds'].timer_length`
(the only state object carrying a `timer_length` attribute, set to 20 at
construction and decremented by the timer thread); the remaining fields are
the `self._*` attributes of `TaskMonitor`. -/
structure MonitorState where
  taskState : String
  steepTimerLength : Int
  currentStep : String
  previousStep : Option String
  currentActivity : Option String
  nextActivity : Option String
  timerActive : Bool
deriving DecidableEq, Repr

/-- The `TaskUpdate` message as filled in by `publish_task_state_message`. -/
structure TaskUpdate where
  task_name : String
  task_description : String
  task_items : List (String × Int)
  steps : List String
  current_step : String
  previous_step : String
  current_activity : String
  next_activity : Option String
  time_remaining_until_next_task : Int
deriving DecidableEq, Repr

/-- Observable effects of a callback: a published `TaskUpdate`, a call of a
trigger method on the machine (`self._activity_action_dict[...]()`), or the
spawning of a timer thread. -/
inductive Event where
  | publish (msg : TaskUpdate)
  | attemptTrigger (trig : String)
  | startTimer
deriving DecidableEq, Repr

/-- `machine.states[st].timer_length` read: only the steep state has the
attribute; elsewhere the access raises `AttributeError` (modelled as `none`). -/
def timerLengthOf (s : MonitorState) (st : String) : Option Int :=
  if st = "steep_for_20_seconds" then some s.steepTimerLength else none

/-- The loop over `activity_msg.label_vec` in `listener_callback`: the first
label that is a key of `_activity_action_dict`. -/
def matchedActivity (labelVec : List String) : Option String :=
  labelVec.find? (fun a => (activityActionDict.find? (fun p => p.1 == a)).isSome)

/-- Lookup of the trigger bound to a matched activity label. -/
def triggerOf (a : String) : Option String :=
  (activityActionDict.find? (fun p => p.1 == a)).map (fun p => p.2)

/-- Semantics of calling a trigger method on the `transitions` machine:
the first declared transition with this trigger whose source is the current
state fires and yields its destination; otherwise the call raises
`MachineError` (modelled as `none`). -/
def applyTrigger (trig st : String) : Option String :=
  (taskTransitions.find? (fun t => t.trigger == trig && t.source == st)).map (fun t => t.dest)

/-- `publish_task_state_message`: builds the `TaskUpdate` and, while doing so,
mutates `self._next_activity` to the trigger of the first declared transition
whose source is `self._task.state`, leaving it unchanged when no transition
leaves the current machine state (the sticky behavior).  Returns the updated
node state and the published message. -/
def publishMsg (s : MonitorState) : MonitorState × TaskUpdate :=
  let next : Option String :=
    match taskTransitions.find? (fun t => t.source == s.taskState) with
    | some t => some t.trigger
    | none => s.nextActivity
  ({s with nextActivity := next},
   { task_name := taskName
     task_description := taskDescription
     task_items := taskItems
     steps := stepNames.map humanize
     current_step := humanize s.currentStep
     previous_step := s.previousStep.getD "N/A"
     current_activity := s.currentActivity.getD "N/A"
     next_activity := next
     time_remaining_until_next_task := (timerLengthOf s s.taskState).getD (-1) })

/-- `listener_callback(activity_msg)`.  `Except.error ()` models an unhandled
Python exception: `label_vec[0]` on an empty list (IndexError), or the
impossible `KeyError` on `_activity_action_dict` (unreachable because the
label was matched against its keys). -/
def listener_callback (s : MonitorState) (labelVec : List String) :
    Except Unit (MonitorState × List Event) :=
  match matchedActivity labelVec with
  | none =>
    match labelVec with
    | [] => Except.error ()
    | a :: _ =>
      let s1 := {s with currentActivity := some a}
      Except.ok ((publishMsg s1).1, [Event.publish (publishMsg s1).2])
  | some act =>
    let s1 := {s with currentActivity := some act}
    if s1.timerActive then
      Except.ok (s1, [])
    else
      match triggerOf act with
      | none => Except.error ()
      | some trig =>
        let s2 :=
          match applyTrigger trig s1.taskState with
          | some dest =>
            {s1 with taskState := dest, previousStep := some s1.currentStep, currentStep := dest}
          | none => s1
        let s3 := (publishMsg s2).1
        let msg := (publishMsg s2).2
        if s3.taskState = "steep_for_20_seconds" ∧ 0 < s3.steepTimerLength then
          Except.ok ({s3 with timerActive := true},
                     [Event.attemptTrigger trig, Event.publish msg, Event.startTimer])
        else
          Except.ok (s3, [Event.attemptTrigger trig, Event.publish msg])

/-- The `for i in range(int(loops))` body of `task_timer_thread`: publish a
tick snapshot, then decrement the steep state's `timer_length` by one. -/
def timerLoop : Nat → MonitorState → MonitorState × List TaskUpdate
  | 0, s => (s, [])
  | Nat.succ n, s =>
    let s1 := (publishMsg s).1
    let msg := (publishMsg s).2
    let s2 := {s1 with steepTimerLength := s1.steepTimerLength - 1}
    ((timerLoop n s2).1, msg :: (timerLoop n s2).2)

/-- `list(machine.states.keys()).index(state)` followed by indexing at
`curr_idx + 1`: the step after `st` in the definition's step ordering,
`none` when the indexing would raise. -/
def nextInSequence (st : String) : Option String :=
  match stepNames.findIdx? (fun x => x == st) with
  | none => none
  | some i => stepNames.get? (i + 1)

/-- Node state after the tick loop and the `_timer_active = False` write of
`task_timer_thread`. -/
def afterLoop (s : MonitorState) : MonitorState :=
  {(timerLoop s.steepTimerLength.toNat s).1 with timerActive := false}

/-- Node state after the post-loop auto-advance of `task_timer_thread`:
`to_state_dict[next_state]()` moves the machine to `nx`, then
`_previous_step`/`_current_step` are updated. -/
def advancedState (s : MonitorState) (nx : String) : MonitorState :=
  {(afterLoop s) with
    taskState := nx
    previousStep := some (afterLoop s).currentStep
    currentStep := nx}

/-- `task_timer_thread`: reads `timer_length` of the current machine state
(AttributeError, hence `error`, off the steep state), runs the tick loop
(`timerLoop`), clears `_timer_active` (`afterLoop`), advances to the next
state in the step ordering via `to_state_dict` (IndexError, hence `error`,
when the current step is last; `advancedState`), and publishes a final
snapshot. -/
def task_timer_thread (s : MonitorState) : Except Unit (MonitorState × List Event) :=
  if s.taskState = "steep_for_20_seconds" then
    match nextInSequence (afterLoop s).taskState with
    | none => Except.error ()
    | some nx =>
      Except.ok ((publishMsg (advancedState s nx)).1,
        (timerLoop s.steepTimerLength.toNat s).2.map Event.publish ++
          [Event.publish (publishMsg (advancedState s nx)).2])
  else Except.error ()

/-- The remaining-seconds values carried by the published snapshots of an
effect list, in publication order. -/
def publishedRemaining (evs : List Event) : List Int :=
  evs.filterMap (fun e =>
    match e with
    | Event.publish m => some m.time_remaining_until_next_task
    | _ => none)

/-- Node state right after `TaskMonitor.__init__` assigns its attributes and
before its initial `publish_task_state_message` call. -/
def startState : MonitorState :=
  { taskState := "open_bottle_and_pour_water_into_cup"
    steepTimerLength := 20
    currentStep := "open_bottle_and_pour_water_into_cup"
    previousStep := none
    currentActivity := none
    nextActivity := none
    timerActive := false }

/-- Node state with an active timer, as during a steep countdown; used to
exercise the handler while `_timer_active` is set. -/
def busyState : MonitorState :=
  { startState with timerActive := true }

/-- The handler's result state on a matched observation during `busyState`. -/
def busyResult : MonitorState :=
  { busyState with currentActivity := some "making tea" }

/-- Node state at the start of a steep countdown with `timer_length = d`. -/
def steepStateD (d : Int) : MonitorState :=
  { taskState := "steep_for_20_seconds"
    steepTimerLength := d
    currentStep := "steep_for_20_seconds"
    previousStep := some "place_tea_bag_into_cup"
    currentActivity := some "making tea"
    nextActivity := some "make_tea"
    timerActive := true }

/-- Node state on the final step, which has no outgoing transition. -/
def doneState : MonitorState :=
  { startState with taskState := "enjoy", currentStep := "enjoy",
                    nextActivity := some "make_tea" }

/-- Node state re-entering the step before the steep step after the steep
timer has already run to completion once (stored duration now 0). -/
def reenterState : MonitorState :=
  { taskState := "place_tea_bag_into_cup"
    steepTimerLength := 0
    currentStep := "place_tea_bag_into_cup"
    previousStep := some "open_bottle_and_pour_water_into_cup"
    currentActivity := none
    nextActivity := some "make_tea"
    timerActive := false }

/-- Whether an effect list contains a trigger-method call on the machine. -/
def hasTriggerAttempt (evs : List Event) : Bool :=
  evs.any (fun e =>
    match e with
    | Event.attemptTrigger _ => true
    | _ => false)

/-- Tick-snapshot remaining values of a timer-thread run: the remaining
seconds carried by every published snapshot except the final post-advance
one. -/
def tickValuesOf (s : MonitorState) : List Int :=
  match task_timer_thread s with
  | Except.ok (_, evs) => publishedRemaining evs.dropLast
  | Except.error _ => []

/-- The steep step's stored `timer_length` after a timer-thread run. -/
def finalDurationOf (s : MonitorState) : Option Int :=
  match task_timer_thread s with
  | Except.ok (s2, _) => some s2.steepTimerLength
  | Except.error _ => none

/-- Node state after a successful trigger call in `listener_callback`:
`_current_activity` was set to the matched label, the machine moved to
`dest`, and the step-tracking attributes were updated. -/
def stepAdvanced (t : MonitorState) (act dest : String) : MonitorState :=
  {t with
    currentActivity := some act
    taskState := dest
    previousStep := some t.currentStep
    currentStep := dest}

instance {ε α : Type} [DecidableEq ε] [DecidableEq α] : DecidableEq (Except ε α) := fun a b =>
  match a, b with
  | Except.ok x, Except.ok y =>
    if h : x = y then isTrue (by rw [h]) else isFalse (fun hh => h (Except.ok.inj hh))
  | Except.error x, Except.error y =>
    if h : x = y then isTrue (by rw [h]) else isFalse (fun hh => h (Except.error.inj hh))
  | Except.ok _, Except.error _ => isFalse (fun hh => Except.noConfusion hh)
  | Except.error _, Except.ok _ => isFalse (fun hh => Except.noConfusion hh)

theorem publishMsg_taskState (s : MonitorState) : (publishMsg s).1.taskState = s.taskState := rfl

theorem publishMsg_currentStep (s : MonitorState) :
    (publishMsg s).1.currentStep = s.currentStep := rfl

theorem publishMsg_previousStep (s : MonitorState) :
    (publishMsg s).1.previousStep = s.previousStep := rfl

theorem publishMsg_timerActive (s : MonitorState) :
    (publishMsg s).1.timerActive = s.timerActive := rfl

theorem publishMsg_steep (s : MonitorState) :
    (publishMsg s).1.steepTimerLength = s.steepTimerLength := rfl

theorem timerLoop_state (n : Nat) (s : MonitorState) :
    (timerLoop n s).1.taskState = s.taskState ∧
    (timerLoop n s).1.currentStep = s.currentStep ∧
    (timerLoop n s).1.previousStep = s.previousStep ∧
    (timerLoop n s).1.timerActive = s.timerActive ∧
    (timerLoop n s).1.steepTimerLength = s.steepTimerLength - (n : Int) := by
  induction n generalizing s with
  | zero => simp [timerLoop]
  | succ n ih =>
    have hstep :
        (timerLoop (Nat.succ n) s).1 =
          (timerLoop n {(publishMsg s).1 with
            steepTimerLength := (publishMsg s).1.steepTimerLength - 1}).1 := rfl
    rw [hstep]
    obtain ⟨h1, h2, h3, h4, h5⟩ :=
      ih {(publishMsg s).1 with steepTimerLength := (publishMsg s).1.steepTimerLength - 1}
    refine ⟨?_, ?_, ?_, ?_, ?_⟩
    · rw [h1]; rfl
    · rw [h2]; rfl
    · rw [h3]; rfl
    · rw [h4]; rfl
    · rw [h5]
      have : ({(publishMsg s).1 with
          steepTimerLength := (publishMsg s).1.steepTimerLength - 1} :
          MonitorState).steepTimerLength = s.steepTimerLength - 1 := rfl
      rw [this]
      push_cast
      ring

theorem timerLoop_ticks (n : Nat) (s : MonitorState)
    (h : s.taskState = "steep_for_20_seconds") :
    (timerLoop n s).2.map (fun m => m.time_remaining_until_next_task) =
      (List.range n).map (fun i : Nat => s.steepTimerLength - (i : Int)) := by
  induction n generalizing s with
  | zero => simp [timerLoop]
  | succ n ih =>
    have hstep :
        (timerLoop (Nat.succ n) s).2 =
          (publishMsg s).2 ::
            (timerLoop n {(publishMsg s).1 with
              steepTimerLength := (publishMsg s).1.steepTimerLength - 1}).2 := rfl
    have hmsg : (publishMsg s).2.time_remaining_until_next_task = s.steepTimerLength := by
      simp [publishMsg, timerLengthOf, h]
    have hts : ({(publishMsg s).1 with
        steepTimerLength := (publishMsg s).1.steepTimerLength - 1} :
        MonitorState).taskState = "steep_for_20_seconds" := h
    have hsl : ({(publishMsg s).1 with
        steepTimerLength := (publishMsg s).1.steepTimerLength - 1} :
        MonitorState).steepTimerLength = s.steepTimerLength - 1 := rfl
    rw [hstep, List.map_cons, hmsg,
      ih _ hts, hsl, List.range_succ_eq_map, List.map_cons, List.map_map]
    have hfun : ((fun i : Nat => s.steepTimerLength - (i : Int)) ∘ Nat.succ) =
        fun i : Nat => s.steepTimerLength - 1 - (i : Int) := by
      funext i
      simp only [Function.comp]
      push_cast
      ring
    rw [hfun]
    norm_num

theorem listener_steep_invariant (s : MonitorState) (lv : List String)
    (s2 : MonitorState) (evs : List Event)
    (h : listener_callback s lv = Except.ok (s2, evs)) :
    s2.steepTimerLength = s.steepTimerLength := by
  rcases hm : matchedActivity lv with _ | act
  · rcases lv with _ | ⟨a, rest⟩
    · simp [listener_callback, hm] at h
    · simp only [listener_callback, hm, Except.ok.injEq, Prod.mk.injEq] at h
      obtain ⟨h1, -⟩ := h
      subst h1
      rfl
  · rcases hta : s.timerActive with _ | _
    · rcases htr : triggerOf act with _ | trig
      · simp [listener_callback, hm, hta, htr] at h
      · rcases hap : applyTrigger trig s.taskState with _ | dest
        · simp [listener_callback, hm, hta, htr, hap, publishMsg] at h
          split at h
          · simp only [Except.ok.injEq, Prod.mk.injEq] at h
            obtain ⟨h1, -⟩ := h
            subst h1
            rfl
          · simp only [Except.ok.injEq, Prod.mk.injEq] at h
            obtain ⟨h1, -⟩ := h
            subst h1
            rfl
        · simp [listener_callback, hm, hta, htr, hap, publishMsg] at h
          split at h
          · simp only [Except.ok.injEq, Prod.mk.injEq] at h
            obtain ⟨h1, -⟩ := h
            subst h1
            rfl
          · simp only [Except.ok.injEq, Prod.mk.injEq] at h
            obtain ⟨h1, -⟩ := h
            subst h1
            rfl
    · simp [listener_callback, hm, hta] at h
      obtain ⟨h1, -⟩ := h
      subst h1
      rfl

/-- C1: while `_timer_active` is set, every activity observation the handler
completes on (no exception) leaves `_current_step`, `_previous_step` and the
machine state unchanged and never calls a trigger method on the machine,
regardless of whether any label matched the vocabulary; only the recorded
activity (and, via the unmatched-branch publication, `_next_activity`) may
change. -/
theorem timer_active_blocks_step_change (s : MonitorState) (lv : List String)
    (s2 : MonitorState) (evs : List Event)
    (ht : s.timerActive = true)
    (h : listener_callback s lv = Except.ok (s2, evs)) :
    s2.currentStep = s.currentStep ∧ s2.previousStep = s.previousStep ∧
    s2.taskState = s.taskState ∧ hasTriggerAttempt evs = false := by
  rcases hm : matchedActivity lv with _ | act
  · rcases lv with _ | ⟨a, rest⟩
    · simp [listener_callback, hm] at h
    · simp only [listener_callback, hm, Except.ok.injEq, Prod.mk.injEq] at h
      obtain ⟨h1, h2⟩ := h
      subst h1
      subst h2
      exact ⟨rfl, rfl, rfl, rfl⟩
  · simp [listener_callback, hm, ht] at h
    obtain ⟨h1, h2⟩ := h
    subst h1
    subst h2
    exact ⟨rfl, rfl, rfl, rfl⟩

theorem timer_active_blocks_step_change_witness :
    busyResult.currentStep = busyState.currentStep ∧
    busyResult.previousStep = busyState.previousStep ∧
    busyResult.taskState = busyState.taskState ∧
    hasTriggerAttempt [] = false :=
  timer_active_blocks_step_change busyState ["making tea"] busyResult [] rfl rfl

/-- C10: a vocabulary-matched observation arriving while `_timer_active` is
set only records the matched activity and returns: no snapshot is published,
no event is emitted at all, and every other field is unchanged. -/
theorem matched_during_timer_no_publish (s : MonitorState) (lv : List String) (a : String)
    (hm : matchedActivity lv = some a) (ht : s.timerActive = true) :
    listener_callback s lv = Except.ok ({s with currentActivity := some a}, []) := by
  simp [listener_callback, hm, ht]

theorem matched_during_timer_no_publish_witness :
    listener_callback busyState ["making tea"] = Except.ok (busyResult, []) :=
  matched_during_timer_no_publish busyState ["making tea"] "making tea" rfl rfl

/-- C6: when no declared transition leaves the current machine state,
`publish_task_state_message` leaves `_next_activity` unchanged and publishes
that previously computed value (sticky), rather than null or empty. -/
theorem next_trigger_sticky (s : MonitorState)
    (h : taskTransitions.find? (fun t => t.source == s.taskState) = none) :
    (publishMsg s).1.nextActivity = s.nextActivity ∧
    (publishMsg s).2.next_activity = s.nextActivity := by
  simp [publishMsg, h]

theorem next_trigger_sticky_witness :
    (publishMsg doneState).1.nextActivity = doneState.nextActivity ∧
    (publishMsg doneState).2.next_activity = doneState.nextActivity :=
  next_trigger_sticky doneState rfl

/-- C7: a non-empty observation none of whose labels is in the vocabulary
sets `_current_activity` to the first label, publishes exactly one snapshot
(so no trigger call and no timer start), and leaves the step-tracking fields,
machine state and timer flag unchanged. -/
theorem unmatched_updates_activity_only (s : MonitorState) (a : String) (rest : List String)
    (hm : matchedActivity (a :: rest) = none) :
    ∃ s2 msg, listener_callback s (a :: rest) = Except.ok (s2, [Event.publish msg]) ∧
      s2.currentStep = s.currentStep ∧ s2.taskState = s.taskState ∧
      s2.previousStep = s.previousStep ∧ s2.timerActive = s.timerActive ∧
      s2.currentActivity = some a ∧
      msg.current_step = humanize s.currentStep := by
  refine ⟨(publishMsg {s with currentActivity := some a}).1,
          (publishMsg {s with currentActivity := some a}).2, ?_, rfl, rfl, rfl, rfl, rfl, rfl⟩
  simp only [listener_callback, hm]

theorem unmatched_updates_activity_only_witness :
    ∃ s2 msg, listener_callback startState ["unknown_label"] = Except.ok (s2, [Event.publish msg]) ∧
      s2.currentStep = startState.currentStep ∧ s2.taskState = startState.taskState ∧
      s2.previousStep = startState.previousStep ∧ s2.timerActive = startState.timerActive ∧
      s2.currentActivity = some "unknown_label" ∧
      msg.current_step = humanize startState.currentStep :=
  unmatched_updates_activity_only startState "unknown_label" [] rfl

/-- C8: an observation with an empty label vector is NOT handled defensively:
`listener_callback` evaluates `label_vec[0]` on the empty list and raises
`IndexError` (modelled as `Except.error ()`), for every node state. -/
theorem empty_observation_crashes (s : MonitorState) :
    listener_callback s [] = Except.error () := rfl

theorem afterLoop_fields (s : MonitorState) :
    (afterLoop s).taskState = s.taskState ∧
    (afterLoop s).currentStep = s.currentStep ∧
    (afterLoop s).previousStep = s.previousStep ∧
    (afterLoop s).timerActive = false ∧
    (afterLoop s).steepTimerLength = s.steepTimerLength - (s.steepTimerLength.toNat : Int) := by
  obtain ⟨h1, h2, h3, h4, h5⟩ := timerLoop_state s.steepTimerLength.toNat s
  exact ⟨h1, h2, h3, rfl, h5⟩

theorem thread_eq (s : MonitorState) (hs : s.taskState = "steep_for_20_seconds") :
    task_timer_thread s =
      Except.ok ((publishMsg (advancedState s "enjoy")).1,
        (timerLoop s.steepTimerLength.toNat s).2.map Event.publish ++
          [Event.publish (publishMsg (advancedState s "enjoy")).2]) := by
  have h2 : nextInSequence (afterLoop s).taskState = some "enjoy" := by
    rw [(afterLoop_fields s).1, hs]
    rfl
  unfold task_timer_thread
  rw [if_pos hs, h2]

theorem getLast_append_single {α : Type} (l : List α) (a : α) :
    (l ++ [a]).getLast? = some a := by
  induction l with
  | nil => rfl
  | cons x xs ih =>
    cases hxe : xs ++ [a] with
    | nil => exact absurd hxe (by simp)
    | cons y ys =>
      rw [List.cons_append, hxe, List.getLast?_cons_cons, ← hxe, ih]

/-- C2: for this task the timed step is not last in the step ordering, and
timer expiry advances `_current_step` to the step right after it in the
definition's sequence (`enjoy`, reached by no graph transition), sets
`_previous_step` to the expired step, clears `_timer_active`, and publishes a
final snapshot showing the new step. -/
theorem timer_expiry_advances_sequence (s : MonitorState)
    (hs : s.taskState = "steep_for_20_seconds")
    (hc : s.currentStep = "steep_for_20_seconds") :
    ∃ s2 evs m, task_timer_thread s = Except.ok (s2, evs) ∧
      nextInSequence "steep_for_20_seconds" = some "enjoy" ∧
      s2.currentStep = "enjoy" ∧
      s2.previousStep = some "steep_for_20_seconds" ∧
      s2.timerActive = false ∧
      evs.getLast? = some (Event.publish m) ∧
      m.current_step = "enjoy" := by
  refine ⟨_, _, (publishMsg (advancedState s "enjoy")).2,
    thread_eq s hs, rfl, rfl, ?_, rfl, getLast_append_single _ _, rfl⟩
  show some (afterLoop s).currentStep = some "steep_for_20_seconds"
  rw [(afterLoop_fields s).2.1, hc]

theorem timer_expiry_advances_sequence_witness :
    ∃ s2 evs m, task_timer_thread (steepStateD 1) = Except.ok (s2, evs) ∧
      nextInSequence "steep_for_20_seconds" = some "enjoy" ∧
      s2.currentStep = "enjoy" ∧
      s2.previousStep = some "steep_for_20_seconds" ∧
      s2.timerActive = false ∧
      evs.getLast? = some (Event.publish m) ∧
      m.current_step = "enjoy" :=
  timer_expiry_advances_sequence (steepStateD 1) rfl rfl

theorem publishedRemaining_map (l : List TaskUpdate) :
    publishedRemaining (l.map Event.publish) =
      l.map (fun m => m.time_remaining_until_next_task) := by
  induction l with
  | nil => rfl
  | cons x xs ih =>
    show x.time_remaining_until_next_task :: publishedRemaining (xs.map Event.publish) =
      x.time_remaining_until_next_task ::
        xs.map (fun m => m.time_remaining_until_next_task)
    rw [ih]

theorem publishedRemaining_append (a b : List Event) :
    publishedRemaining (a ++ b) = publishedRemaining a ++ publishedRemaining b := by
  simp [publishedRemaining, List.filterMap_append]

/-- C3 counterexample: with stored duration 2, the tick snapshots carry the
remaining values 2, 1 — not 1, 0 as the claim states. -/
theorem tick_values_counterexample :
    tickValuesOf (steepStateD 2) = [2, 1] ∧ tickValuesOf (steepStateD 2) ≠ [1, 0] :=
  ⟨rfl, by decide⟩

/-- C3 amended: a countdown from stored duration d publishes one tick per
loop iteration carrying remaining values d, d-1, …, 1 (the value read before
each decrement), after which the expiry path runs exactly once: one final
snapshot (whose remaining field is -1, the new step being untimed) with the
step advanced. -/
theorem tick_values_amended (s : MonitorState)
    (hs : s.taskState = "steep_for_20_seconds")
    (hd : 0 < s.steepTimerLength) :
    ∃ s2 evs, task_timer_thread s = Except.ok (s2, evs) ∧
      publishedRemaining evs =
        (List.range s.steepTimerLength.toNat).map
          (fun i : Nat => s.steepTimerLength - (i : Int)) ++ [-1] ∧
      s2.currentStep = "enjoy" := by
  refine ⟨_, _, thread_eq s hs, ?_, rfl⟩
  rw [publishedRemaining_append, publishedRemaining_map, timerLoop_ticks _ _ hs]
  rfl

theorem tick_values_amended_witness :
    ∃ s2 evs, task_timer_thread (steepStateD 2) = Except.ok (s2, evs) ∧
      publishedRemaining evs =
        (List.range (steepStateD 2).steepTimerLength.toNat).map
          (fun i : Nat => (steepStateD 2).steepTimerLength - (i : Int)) ++ [-1] ∧
      s2.currentStep = "enjoy" :=
  tick_values_amended (steepStateD 2) rfl (by decide)

/-- C4: a matched activity whose trigger has no transition out of the
current machine state raises `MachineError` inside the handler, which is
swallowed (the call still returns normally), leaves the step-tracking fields
and machine state unchanged, and still publishes a snapshot reflecting the
unchanged step fields. -/
theorem no_transition_swallowed (s : MonitorState) (lv : List String) (act trig : String)
    (hm : matchedActivity lv = some act) (ht : s.timerActive = false)
    (htr : triggerOf act = some trig)
    (hno : applyTrigger trig s.taskState = none) :
    ∃ s2 evs msg, listener_callback s lv = Except.ok (s2, evs) ∧
      s2.currentStep = s.currentStep ∧ s2.previousStep = s.previousStep ∧
      s2.taskState = s.taskState ∧
      Event.publish msg ∈ evs ∧ msg.current_step = humanize s.currentStep ∧
      msg.previous_step = s.previousStep.getD "N/A" := by
  by_cases hc : s.taskState = "steep_for_20_seconds" ∧ 0 < s.steepTimerLength
  · refine ⟨{(publishMsg {s with currentActivity := some act}).1 with timerActive := true},
      [Event.attemptTrigger trig,
       Event.publish (publishMsg {s with currentActivity := some act}).2, Event.startTimer],
      (publishMsg {s with currentActivity := some act}).2, ?_, rfl, rfl, rfl,
      List.mem_cons_of_mem _ (List.mem_cons_self _ _), rfl, rfl⟩
    rw [hc.1] at hno
    simp [listener_callback, hm, ht, htr, hno, hc]
    exact ⟨rfl, hc.2⟩
  · refine ⟨(publishMsg {s with currentActivity := some act}).1,
      [Event.attemptTrigger trig,
       Event.publish (publishMsg {s with currentActivity := some act}).2],
      (publishMsg {s with currentActivity := some act}).2, ?_, rfl, rfl, rfl,
      List.mem_cons_of_mem _ (List.mem_cons_self _ _), rfl, rfl⟩
    simp [listener_callback, hm, ht, htr, hno, hc]
    exact fun ha => not_lt.mp (fun hb => hc ⟨ha, hb⟩)

theorem no_transition_swallowed_witness :
    ∃ s2 evs msg, listener_callback startState ["making tea"] = Except.ok (s2, evs) ∧
      s2.currentStep = startState.currentStep ∧ s2.previousStep = startState.previousStep ∧
      s2.taskState = startState.taskState ∧
      Event.publish msg ∈ evs ∧ msg.current_step = humanize startState.currentStep ∧
      msg.previous_step = startState.previousStep.getD "N/A" :=
  no_transition_swallowed startState ["making tea"] "making tea" "make_tea" rfl rfl rfl rfl

theorem listener_success_eq (t : MonitorState) (lv : List String) (act trig dest : String)
    (hm : matchedActivity lv = some act) (hta : t.timerActive = false)
    (htr : triggerOf act = some trig)
    (hap : applyTrigger trig t.taskState = some dest)
    (hnotimer : ¬(dest = "steep_for_20_seconds" ∧ 0 < t.steepTimerLength)) :
    listener_callback t lv =
      Except.ok ((publishMsg (stepAdvanced t act dest)).1,
        [Event.attemptTrigger trig, Event.publish (publishMsg (stepAdvanced t act dest)).2]) := by
  simp [listener_callback, hm, hta, htr, hap, stepAdvanced, hnotimer]
  exact fun ha => not_lt.mp (fun hb => hnotimer ⟨ha, hb⟩)

/-- C5 counterexample: the task definition is not immutable — one run of the
timer thread changes the steep step's stored `timer_length` from 1 to 0. -/
theorem stored_duration_mutated :
    finalDurationOf (steepStateD 1) = some 0 ∧
    (steepStateD 1).steepTimerLength = 1 ∧
    finalDurationOf (steepStateD 1) ≠ some ((steepStateD 1).steepTimerLength) :=
  ⟨rfl, rfl, by decide⟩

/-- C5 amended: the name, description, items, step list, transitions and
vocabulary of the task definition are fixed constants never written after
construction, but the timed step's stored duration is mutated by the timer
thread: the activity handler preserves it, while a completed countdown
(entered with a non-negative stored duration) leaves it at 0. -/
theorem task_fields_immutable_except_duration (s : MonitorState) (lv : List String)
    (s2 : MonitorState) (evs : List Event) (t : MonitorState)
    (h : listener_callback s lv = Except.ok (s2, evs))
    (hts : t.taskState = "steep_for_20_seconds")
    (htd : 0 ≤ t.steepTimerLength) :
    s2.steepTimerLength = s.steepTimerLength ∧
    ∃ t2 evs2, task_timer_thread t = Except.ok (t2, evs2) ∧ t2.steepTimerLength = 0 := by
  refine ⟨listener_steep_invariant s lv s2 evs h, _, _, thread_eq t hts, ?_⟩
  show (afterLoop t).steepTimerLength = 0
  rw [(afterLoop_fields t).2.2.2.2]
  omega

theorem task_fields_immutable_except_duration_witness :
    (publishMsg {startState with currentActivity := some "unknown_label"}).1.steepTimerLength =
      startState.steepTimerLength ∧
    ∃ t2 evs2, task_timer_thread (steepStateD 1) = Except.ok (t2, evs2) ∧
      t2.steepTimerLength = 0 :=
  task_fields_immutable_except_duration startState ["unknown_label"]
    (publishMsg {startState with currentActivity := some "unknown_label"}).1
    [Event.publish (publishMsg {startState with currentActivity := some "unknown_label"}).2]
    (steepStateD 1) rfl rfl (by decide)

/-- C9: a completed countdown leaves the steep step's stored duration at 0;
if the session then re-enters the steep step (trigger `make_tea` from the
preceding step with the stored duration now 0), the timer-start condition
`timer_length > 0` fails: no timer thread is started, `_timer_active` stays
false, and the published snapshot reports 0 remaining seconds. -/
theorem expired_timer_not_restarted (s t : MonitorState)
    (hs : s.taskState = "steep_for_20_seconds") (hd : 0 ≤ s.steepTimerLength)
    (h0 : t.steepTimerLength = 0) (hts : t.taskState = "place_tea_bag_into_cup")
    (hta : t.timerActive = false) :
    (∃ s2 evs, task_timer_thread s = Except.ok (s2, evs) ∧ s2.steepTimerLength = 0) ∧
    (∃ t2 evs2 m, listener_callback t ["making tea"] = Except.ok (t2, evs2) ∧
      t2.taskState = "steep_for_20_seconds" ∧ t2.timerActive = false ∧
      Event.startTimer ∉ evs2 ∧ Event.publish m ∈ evs2 ∧
      m.time_remaining_until_next_task = 0) := by
  constructor
  · refine ⟨_, _, thread_eq s hs, ?_⟩
    show (afterLoop s).steepTimerLength = 0
    rw [(afterLoop_fields s).2.2.2.2]
    omega
  · have hap : applyTrigger "make_tea" t.taskState = some "steep_for_20_seconds" := by
      rw [hts]
      rfl
    have hnotimer : ¬("steep_for_20_seconds" = "steep_for_20_seconds" ∧
        0 < t.steepTimerLength) := by
      rw [h0]
      intro hcon
      exact absurd hcon.2 (by norm_num)
    refine ⟨_, _, (publishMsg (stepAdvanced t "making tea" "steep_for_20_seconds")).2,
      listener_success_eq t ["making tea"] "making tea" "make_tea" "steep_for_20_seconds"
        rfl hta rfl hap hnotimer,
      rfl, ?_, ?_, List.mem_cons_of_mem _ (List.mem_cons_self _ _), ?_⟩
    · show t.timerActive = false
      exact hta
    · simp
    · show t.steepTimerLength = 0
      exact h0

theorem expired_timer_not_restarted_witness :
    (∃ s2 evs, task_timer_thread (steepStateD 1) = Except.ok (s2, evs) ∧
      s2.steepTimerLength = 0) ∧
    (∃ t2 evs2 m, listener_callback reenterState ["making tea"] = Except.ok (t2, evs2) ∧
      t2.taskState = "steep_for_20_seconds" ∧ t2.timerActive = false ∧
      Event.startTimer ∉ evs2 ∧ Event.publish m ∈ evs2 ∧
      m.time_remaining_until_next_task = 0) :=
  expired_timer_not_restarted (steepStateD 1) reenterState rfl (by decide) rfl rfl rfl
